import Mathlib

/-!
Verification development for the UpdaterTest Swiss-tournament application.

The embedding covers the update checker (core/updater.py) and the GUI-side
tournament operations (gui/players_tab.py, gui/mainwindow.py).  Python
runtime behaviour (dict access, truthiness, subscripting, int parsing,
exception flow) is modelled explicitly; machine-level concerns do not arise.
-/

/-- Model of a JSON value, as produced by response.json(). Numbers are
modelled as integers; the claims never depend on fractional numerics. -/
inductive JValue : Type
  | null : JValue
  | bool : Bool → JValue
  | num : Int → JValue
  | str : String → JValue
  | arr : List JValue → JValue
  | obj : List (String × JValue) → JValue

/-- Association-list lookup, modelling Python dict indexing/membership.
Keys in dicts built by json parsing are unique, so first-match lookup is
faithful. -/
def alistGet {κ α : Type} [DecidableEq κ] (m : List (κ × α)) (k : κ) : Option α :=
  match m with
  | [] => none
  | (k₀, v) :: rest => if k = k₀ then some v else alistGet rest k

/-- Association-list update, modelling Python dict assignment d[k] = v:
replaces in place when the key exists, appends otherwise (insertion order). -/
def alistSet {κ α : Type} [DecidableEq κ] (m : List (κ × α)) (k : κ) (v : α) :
    List (κ × α) :=
  match m with
  | [] => [(k, v)]
  | (k₀, v₀) :: rest => if k = k₀ then (k, v) :: rest else (k₀, v₀) :: alistSet rest k v

/-- Python truthiness of a JSON value (bool(x)). -/
def JValue.truthy : JValue → Bool
  | .null => false
  | .bool b => b
  | .num n => n != 0
  | .str s => s != ""
  | .arr xs => !xs.isEmpty
  | .obj fs => !fs.isEmpty

/-- Python exception kinds that the modelled fragments can raise. -/
inductive PyErr : Type
  | keyError : PyErr
  | indexError : PyErr
  | typeError : PyErr
  | attributeError : PyErr
deriving DecidableEq, Repr

/-- Python subscripting x[0] on a JSON value: first element of a list,
first character of a string (IndexError when empty), KeyError on a dict
(0 is not one of its string keys), TypeError otherwise. -/
def subscriptZero : JValue → Except PyErr JValue
  | .arr [] => .error .indexError
  | .arr (x :: _) => .ok x
  | .str s =>
    match s.data with
    | [] => .error .indexError
    | c :: _ => .ok (.str (String.mk [c]))
  | .obj _ => .error .keyError
  | _ => .error .typeError

/-- Python x.get(k) with default None: succeeds only on a dict,
AttributeError otherwise. -/
def pyGet (v : JValue) (k : String) : Except PyErr (Option JValue) :=
  match v with
  | .obj fs => .ok (alistGet fs k)
  | _ => .error .attributeError

/-- Characters dropped from the left by s.lstrip(c). -/
def lstripChar (c : Char) (s : String) : String :=
  String.mk (s.data.dropWhile (fun d => d = c))

/-- Digit-string accumulator for version-segment and int parsing. -/
def parseDigitsAux : List Char → Nat → Option Nat
  | [], acc => some acc
  | c :: rest, acc =>
    if c.isDigit then parseDigitsAux rest (acc * 10 + (c.toNat - 48))
    else none

/-- Parse a nonempty all-digit character list to a natural number. -/
def parseDigits : List Char → Option Nat
  | [] => none
  | c :: rest => parseDigitsAux (c :: rest) 0

/-- Split a character list on the dot character. -/
def splitOnDot : List Char → List (List Char)
  | [] => [[]]
  | c :: rest =>
    let r := splitOnDot rest
    if c = '.' then [] :: r
    else
      match r with
      | [] => [[c]]
      | g :: gs => (c :: g) :: gs

/-- Modelled from the spec: the third-party packaging.version.parse used by
core/updater.py (the library itself is not part of this repository).  The
model covers plain dotted numeric release versions; any other shape is
treated as unparseable (the library raises InvalidVersion there, which the
caller catches). A parsed version is its list of release segments. -/
def parse_version (s : String) : Option (List Nat) :=
  (splitOnDot s.data).mapM parseDigits

/-- Release segments that are all zero (padding-equivalent to the empty tail). -/
def allZero : List Nat → Bool
  | [] => true
  | n :: ns => n == 0 && allZero ns

/-- Strict less-than on parsed versions: zero-padded lexicographic
comparison of release segments, as packaging.version compares releases. -/
def vlt : List Nat → List Nat → Bool
  | [], ys => !allZero ys
  | _ :: _, [] => false
  | x :: xs, y :: ys => if x < y then true else if y < x then false else vlt xs ys

/-- Outcome of the requests.get call plus response decoding in
Updater.check_for_updates: network-level failure (requests.RequestException),
HTTP error status (raise_for_status), a body that is not JSON
(json.JSONDecodeError), or a parsed JSON payload. -/
inductive FetchResponse : Type
  | netError : FetchResponse
  | httpError : FetchResponse
  | notJson : FetchResponse
  | payload : JValue → FetchResponse

/-- Exception-free core of Updater.check_for_updates on a successful dict
payload: read tag_name with default "0.0.0", lstrip v, parse both versions,
compare.  Returns none when any of those steps raises (non-string tag value,
InvalidVersion from either parse), which the source catches in its generic
except branch. -/
def newer_available (current : String) (fs : List (String × JValue)) : Option Bool :=
  match (alistGet fs "tag_name").getD (JValue.str "0.0.0") with
  | .str s =>
    match parse_version (lstripChar 'v' s), parse_version current with
    | some vt, some vc => some (vlt vc vt)
    | _, _ => none
  | _ => none

/-- Embedding of Updater.check_for_updates.  Result: the returned Bool and
the final value of self.latest_version_info.  Every except branch of the
source returns False and sets latest_version_info to None; a non-dict JSON
payload raises AttributeError at the .get call after latest_version_info was
assigned, landing in the generic except branch as well. -/
def check_for_updates (current : String) (resp : FetchResponse) :
    Bool × Option (List (String × JValue)) :=
  match resp with
  | .payload (.obj fs) =>
    match newer_available current fs with
    | some b => (b, some fs)
    | none => (false, none)
  | _ => (false, none)

/-- Embedding of Updater.get_download_url, over the stored
latest_version_info (None or a JSON dict).  Faithfully tracks the Python
exceptions the statement can raise on arbitrary JSON field values. -/
def get_download_url (info : Option (List (String × JValue))) :
    Except PyErr (Option JValue) :=
  match info with
  | none => .ok none
  | some fs =>
    if (JValue.obj fs).truthy then
      match alistGet fs "assets" with
      | none => .ok none
      | some a =>
        if a.truthy then
          match subscriptZero a with
          | .error e => .error e
          | .ok first => pyGet first "browser_download_url"
        else .ok none
    else .ok none

example : parse_version "1.2.3" = some [1, 2, 3] := by decide
example : parse_version "0.0.0" = some [0, 0, 0] := by decide
example : parse_version "1.0" = some [1, 0] := by decide
example : parse_version "1.0.0b1" = none := by decide
example : parse_version "" = none := by decide
example : lstripChar 'v' "vv1.2" = "1.2" := by decide
example : vlt [1, 0, 0] [1, 0, 1] = true := by decide
example : vlt [1, 0] [1, 0, 0] = false := by decide
example : vlt [0, 4, 0] [0, 5, 0] = true := by decide
example : check_for_updates "0.4.0" (.payload (.obj [("tag_name", .str "v0.5.0")]))
    = (true, some [("tag_name", .str "v0.5.0")]) := rfl
example : check_for_updates "0.4.0" .netError = (false, none) := rfl
example : (check_for_updates "1.0.0" (.payload (.obj []))).2 = some [] := rfl
example : get_download_url (some [("assets", .obj [("x", .null)])])
    = .error .keyError := rfl
example : get_download_url none = .ok none := rfl

/-! ## Tournament data model

The core classes (core/player.py, core/tournament.py) are not among the
visible sources; their fields are modelled from the spec data model
(section 3) and from how the visible GUI code accesses them. -/

/-- Modelled from the spec: core.player.Player (the class file is not among
the visible sources).  Fields follow the spec data model and the attribute
accesses in gui/players_tab.py: opaque unique id assigned at creation,
name, optional integer rating, optional contact/demographic strings, and
the is_active flag (players are created active). -/
structure Player : Type where
  id : Nat
  name : String
  rating : Option Int
  gender : Option String
  dob : Option String
  phone : Option String
  email : Option String
  club : Option String
  federation : Option String
  is_active : Bool
deriving DecidableEq, Repr

/-- Result of one game, as the spec round ledger records it
(win/loss/draw from the first player's side, or a bye). -/
inductive GameResult : Type
  | win : GameResult
  | loss : GameResult
  | draw : GameResult
  | bye : GameResult
deriving DecidableEq, Repr

/-- Modelled from the spec: core.tournament.Tournament (the class file is
not among the visible sources).  Fields follow the spec data model and the
attribute accesses in the visible GUI code: the player registry (dict id to
Player, modelled as an insertion-ordered association list), num_rounds,
tiebreak_order, and the round ledger split into per-round pairings
(rounds_pairings_ids, as the GUI reads it) and per-round recorded results.
nextId models the supply of fresh opaque player ids. -/
structure Tournament : Type where
  name : String
  players : List (Nat × Player)
  num_rounds : Nat
  tiebreak_order : List String
  rounds_pairings_ids : List (List (Nat × Option Nat))
  rounds_results : List (List GameResult)
  nextId : Nat
deriving DecidableEq, Repr

/-- No two players in a registry share a name (the spec registry
invariant), as a decidable check. -/
def namesUnique : List (Nat × Player) → Bool
  | [] => true
  | (_, p) :: rest => !rest.any (fun q => q.2.name == p.name) && namesUnique rest

/-- Data returned by PlayerDetailDialog.get_player_data. -/
structure PlayerData : Type where
  name : String
  rating : Option Int
  gender : Option String
  dob : Option String
  phone : Option String
  email : Option String
  club : Option String
  federation : Option String
deriving DecidableEq, Repr

/-- Outcome surfaced to the user by PlayersTab.add_player_detailed. -/
inductive AddPlayerOutcome : Type
  | startedWarning : AddPlayerOutcome
  | requestReset : AddPlayerOutcome
  | cancelledNoTournament : AddPlayerOutcome
  | dialogCancelled : AddPlayerOutcome
  | emptyNameError : AddPlayerOutcome
  | duplicateNameError : AddPlayerOutcome
  | added : Nat → AddPlayerOutcome
deriving DecidableEq, Repr

/-- Embedding of PlayersTab.add_player_detailed.  Arguments: the current
tournament, whether the user confirms creating a new tournament when none
exists, and the dialog result (none when cancelled).  Returns the updated
tournament together with the surfaced outcome. -/
def add_player_detailed (ot : Option Tournament) (resetConfirm : Bool)
    (dlg : Option PlayerData) : Option Tournament × AddPlayerOutcome :=
  match ot with
  | none =>
    (none, if resetConfirm then .requestReset else .cancelledNoTournament)
  | some t =>
    if !t.rounds_pairings_ids.isEmpty then (some t, .startedWarning)
    else
      match dlg with
      | none => (some t, .dialogCancelled)
      | some d =>
        if d.name == "" then (some t, .emptyNameError)
        else if t.players.any (fun pr => pr.2.name == d.name) then
          (some t, .duplicateNameError)
        else
          let p : Player :=
            { id := t.nextId, name := d.name, rating := d.rating,
              gender := d.gender, dob := d.dob, phone := d.phone,
              email := d.email, club := d.club, federation := d.federation,
              is_active := true }
          (some { t with players := alistSet t.players t.nextId p,
                         nextId := t.nextId + 1 },
           .added t.nextId)

/-- One row produced by csv.DictReader in import_players_csv: each field is
the cell under that header, absent when the column is missing. -/
structure CsvRow : Type where
  name : Option String
  rating : Option String
  gender : Option String
  dob : Option String
  phone : Option String
  email : Option String
  club : Option String
  federation : Option String
deriving DecidableEq, Repr

/-- Model of the Python builtin int(str): optional surrounding whitespace,
optional sign, then at least one digit; anything else raises ValueError
(returned as none). -/
def parse_py_int (s : String) : Option Int :=
  let core := (s.data.dropWhile Char.isWhitespace).reverse.dropWhile
      Char.isWhitespace |>.reverse
  match core with
  | '-' :: rest => (parseDigits rest).map (fun n => -(n : Int))
  | '+' :: rest => (parseDigits rest).map (fun n => (n : Int))
  | rest => (parseDigits rest).map (fun n => (n : Int))

/-- The per-row loop body of PlayersTab.import_players_csv: rows whose Name
cell is absent or empty are skipped; the Rating cell is coerced through
int() with any failure silenced to None; every surviving row is added to
the registry unconditionally.  Returns the updated tournament and the
added counter. -/
def importRows (t : Tournament) : List CsvRow → Tournament × Nat
  | [] => (t, 0)
  | r :: rest =>
    match r.name with
    | none => importRows t rest
    | some nm =>
      if nm == "" then importRows t rest
      else
        let ratingVal : Option Int :=
          match r.rating with
          | none => none
          | some s => if s == "" then none else parse_py_int s
        let p : Player :=
          { id := t.nextId, name := nm, rating := ratingVal,
            gender := r.gender, dob := r.dob, phone := r.phone,
            email := r.email, club := r.club, federation := r.federation,
            is_active := true }
        let t₁ : Tournament :=
          { t with players := alistSet t.players t.nextId p,
                   nextId := t.nextId + 1 }
        let res := importRows t₁ rest
        (res.1, res.2 + 1)

/-- Outcome surfaced to the user by PlayersTab.import_players_csv. -/
inductive ImportOutcome : Type
  | startedWarning : ImportOutcome
  | noTournament : ImportOutcome
  | cancelled : ImportOutcome
  | success : Nat → ImportOutcome
deriving DecidableEq, Repr

/-- Embedding of PlayersTab.import_players_csv.  The file dialog result is
the optional filename; the file content is modelled as the already-parsed
row list (the success path of the source's read loop). -/
def import_players_csv (ot : Option Tournament) (file : Option String)
    (rows : List CsvRow) : Option Tournament × ImportOutcome :=
  match ot with
  | none => (none, .noTournament)
  | some t =>
    if !t.rounds_pairings_ids.isEmpty then (some t, .startedWarning)
    else
      match file with
      | none => (some t, .cancelled)
      | some _ =>
        let res := importRows t rows
        (some res.1, .success res.2)

/-- Embedding of the Withdraw/Reactivate branch of
PlayersTab.on_player_context_menu: toggle is_active on the selected player,
leaving everything else in place (the source mutates the player object
held in the registry dict). -/
def withdraw_reactivate (t : Tournament) (pid : Nat) : Tournament :=
  match alistGet t.players pid with
  | none => t
  | some p =>
    { t with players := alistSet t.players pid { p with is_active := !p.is_active } }

example : parse_py_int "  42 " = some 42 := by decide
example : parse_py_int "-7" = some (-7) := by decide
example : parse_py_int "abc" = none := by decide
example : parse_py_int "" = none := by decide
example : parse_py_int "12.5" = none := by decide

/-! ## Main window state and operations (gui/mainwindow.py) -/

/-- The SwissTournamentApp state that the modelled operations read or
write, plus counters for the observable view-refresh effects (standings
table headers and standings re-sort) so frame properties can speak about
them. -/
structure AppState : Type where
  tournament : Option Tournament
  current_round_index : Nat
  last_recorded_results_data : List (String × String × Int)
  filepath : Option String
  dirty : Bool
  historyLog : List String
  standingsHeaderUpdates : Nat
  standingsResorts : Nat
deriving DecidableEq, Repr

/-- Embedding of SwissTournamentApp.show_settings_dialog.  The dialog
result is none when rejected, otherwise the (num_rounds, tiebreak_order)
pair it returns; the returned Bool is the method result. -/
def show_settings_dialog (st : AppState) (dlg : Option (Nat × List String)) :
    AppState × Bool :=
  match st.tournament with
  | none => (st, false)
  | some t =>
    let started := !t.rounds_pairings_ids.isEmpty
    match dlg with
    | none => (st, false)
    | some (newRounds, newTiebreaks) =>
      let step₁ : Tournament × AppState :=
        if t.num_rounds ≠ newRounds ∧ started = false then
          ({ t with num_rounds := newRounds },
           { st with
              historyLog := st.historyLog
                ++ ["Number of rounds set to " ++ toString newRounds ++ "."],
              dirty := true })
        else (t, st)
      let t₁ := step₁.1
      let st₁ := step₁.2
      let step₂ : Tournament × AppState :=
        if t₁.tiebreak_order ≠ newTiebreaks then
          ({ t₁ with tiebreak_order := newTiebreaks },
           { st₁ with
              historyLog := st₁.historyLog ++ ["Tiebreak order updated."],
              dirty := true,
              standingsHeaderUpdates := st₁.standingsHeaderUpdates + 1,
              standingsResorts := st₁.standingsResorts + 1 })
        else (t₁, st₁)
      ({ step₂.2 with tournament := some step₂.1 }, true)

/-- Embedding of SwissTournamentApp.reset_tournament_state: clears the
tournament, round index, undo data, filepath and the dirty flag (the view
widgets it also clears are outside the modelled state). -/
def reset_tournament_state (st : AppState) : AppState :=
  { st with tournament := none, current_round_index := 0,
            last_recorded_results_data := [], filepath := none,
            dirty := false }

/-- Outcome of the load_tournament attempt on a chosen file: the open call
raises (unreadable file), json.load raises (malformed JSON),
Tournament.from_dict raises (decoding error), or everything succeeds and
yields the decoded tournament plus the gui_state fields with their
defaults applied.  Tournament.from_dict itself is not among the visible
sources; per the spec serialization contract it either reconstructs the
tournament or fails with a decoding error, which is what this outcome type
records. -/
inductive LoadData : Type
  | unreadable : LoadData
  | badJson : LoadData
  | decodeError : LoadData
  | decoded : Tournament → Nat → List (String × String × Int) → LoadData
deriving DecidableEq, Repr

/-- Result surfaced to the user by load_tournament. -/
inductive LoadOutcome : Type
  | abortedUnsaved : LoadOutcome
  | noFileChosen : LoadOutcome
  | loaded : LoadOutcome
  | failed : LoadOutcome
deriving DecidableEq, Repr

/-- Embedding of SwissTournamentApp.load_tournament.  proceed is the
check_save_before_proceeding result; file is the file-dialog result.  On
any exception in the try block the source resets the whole application
state and shows a critical error (outcome failed); note the reset also
runs before Tournament.from_dict on the success path, so a from_dict
failure lands on the already-reset state. -/
def load_tournament (st : AppState) (proceed : Bool) (file : Option String)
    (d : LoadData) : AppState × LoadOutcome :=
  if !proceed then (st, .abortedUnsaved)
  else
    match file with
    | none => (st, .noFileChosen)
    | some fn =>
      match d with
      | .unreadable => (reset_tournament_state st, .failed)
      | .badJson => (reset_tournament_state st, .failed)
      | .decodeError => (reset_tournament_state st, .failed)
      | .decoded t cri lrd =>
        let st₁ := reset_tournament_state st
        ({ st₁ with tournament := some t, current_round_index := cri,
                    last_recorded_results_data := lrd, filepath := some fn,
                    dirty := false,
                    historyLog := st₁.historyLog
                      ++ ["--- Tournament loaded from " ++ fn ++ " ---"] },
         .loaded)

/-! ## Specification-side predicates -/

/-- The specification reading of "a newer version is available": the fetch
delivered a JSON dict, its tag_name value (defaulting to "0.0.0" when
absent) is a string that, with leading v characters stripped, parses to a
version strictly greater than the parsed current version. -/
def SpecNewer (current : String) (resp : FetchResponse) : Prop :=
  ∃ fs s vt vc,
    resp = FetchResponse.payload (JValue.obj fs) ∧
    (alistGet fs "tag_name").getD (JValue.str "0.0.0") = JValue.str s ∧
    parse_version (lstripChar 'v' s) = some vt ∧
    parse_version current = some vc ∧
    vlt vc vt = true

/-- Failure classification for check_for_updates: the cases in which the
source raises inside the try block and lands in an except branch (network
error, HTTP error status, non-JSON body, non-dict payload, a non-string
tag value, or an unparseable latest/current version string).  A missing
tag_name is deliberately not a failure: it defaults to "0.0.0". -/
def check_failure (current : String) (resp : FetchResponse) : Bool :=
  match resp with
  | .netError => true
  | .httpError => true
  | .notJson => true
  | .payload (.obj fs) =>
    match (alistGet fs "tag_name").getD (JValue.str "0.0.0") with
    | .str s =>
      (parse_version (lstripChar 'v' s)).isNone || (parse_version current).isNone
    | _ => true
  | .payload _ => true

/-- Shape restriction under which the claim about get_download_url reads:
the assets value, when present, is a JSON array whose elements are
objects (the GitHub release schema). -/
def assetsWellFormed (info : Option (List (String × JValue))) : Bool :=
  match info with
  | none => true
  | some fs =>
    match alistGet fs "assets" with
    | none => true
    | some (JValue.arr xs) =>
      xs.all (fun x => match x with | JValue.obj _ => true | _ => false)
    | some _ => false

/-- The download url as the claim describes it: None when no release info
is stored, the assets key is absent, or the assets array is empty;
otherwise the browser_download_url of the first asset (None when that key
is absent). -/
def spec_download_url (info : Option (List (String × JValue))) : Option JValue :=
  match info with
  | none => none
  | some fs =>
    match alistGet fs "assets" with
    | some (JValue.arr (JValue.obj gs :: _)) => alistGet gs "browser_download_url"
    | _ => none

/-! ## Concrete fixtures used by witnesses and counterexamples -/

/-- A registered player used in concrete scenarios. -/
def alicePlayer : Player :=
  { id := 0, name := "Alice", rating := some 1500, gender := none,
    dob := none, phone := none, email := none, club := none,
    federation := none, is_active := true }

/-- A one-player tournament that has not started. -/
def aliceTournament : Tournament :=
  { name := "Club Open", players := [(0, alicePlayer)], num_rounds := 3,
    tiebreak_order := ["score", "buchholz"], rounds_pairings_ids := [],
    rounds_results := [], nextId := 1 }

/-- Dialog data duplicating the name of the registered player. -/
def aliceDupData : PlayerData :=
  { name := "Alice", rating := some 1800, gender := none, dob := none,
    phone := none, email := none, club := none, federation := none }

/-- A CSV row whose Name duplicates the registered player. -/
def aliceRow : CsvRow :=
  { name := some "Alice", rating := some "1600", gender := none,
    dob := none, phone := none, email := none, club := none,
    federation := none }

/-- A tournament with no players and no rounds. -/
def emptyTournament : Tournament :=
  { name := "T", players := [], num_rounds := 3, tiebreak_order := ["score"],
    rounds_pairings_ids := [], rounds_results := [], nextId := 0 }

/-- A CSV row whose Rating cell is not parseable as an integer. -/
def badRatingRow : CsvRow :=
  { name := some "Bob", rating := some "abc", gender := none, dob := none,
    phone := none, email := none, club := none, federation := none }

/-- The player record the import loop builds from badRatingRow. -/
def bobCoerced : Player :=
  { id := 0, name := "Bob", rating := none, gender := none, dob := none,
    phone := none, email := none, club := none, federation := none,
    is_active := true }

/-- A second registered player for the started tournament. -/
def bobPlayer : Player :=
  { id := 1, name := "Bob", rating := some 1400, gender := none,
    dob := none, phone := none, email := none, club := none,
    federation := none, is_active := true }

/-- A two-player tournament in which round 1 has been paired. -/
def startedTournament : Tournament :=
  { name := "Club Open", players := [(0, alicePlayer), (1, bobPlayer)],
    num_rounds := 3, tiebreak_order := ["score", "buchholz"],
    rounds_pairings_ids := [[(0, some 1)]], rounds_results := [],
    nextId := 2 }

/-- Application state holding the started tournament. -/
def startedApp : AppState :=
  { tournament := some startedTournament, current_round_index := 0,
    last_recorded_results_data := [], filepath := none, dirty := false,
    historyLog := [], standingsHeaderUpdates := 0, standingsResorts := 0 }

/-- Release info with a well-formed assets array. -/
def goodAssetsInfo : Option (List (String × JValue)) :=
  some [("tag_name", JValue.str "v0.5.0"),
        ("assets",
          JValue.arr [JValue.obj
            [("browser_download_url", JValue.str "https://example.com/app.zip")]])]

/-! ## Helper lemmas -/

theorem alistGet_alistSet_self {κ α : Type} [DecidableEq κ]
    (m : List (κ × α)) (k : κ) (v : α) :
    alistGet (alistSet m k v) k = some v := by
  induction m with
  | nil => simp [alistSet, alistGet]
  | cons hd tl ih =>
    obtain ⟨k₀, v₀⟩ := hd
    by_cases hk : k = k₀
    · simp [alistSet, alistGet, hk]
    · simp [alistSet, alistGet, hk, ih]

theorem alistGet_alistSet_ne {κ α : Type} [DecidableEq κ]
    (m : List (κ × α)) (k k' : κ) (v : α) (h : k' ≠ k) :
    alistGet (alistSet m k v) k' = alistGet m k' := by
  induction m with
  | nil => simp [alistSet, alistGet, h]
  | cons hd tl ih =>
    obtain ⟨k₀, v₀⟩ := hd
    by_cases hk : k = k₀
    · subst hk
      simp [alistSet, alistGet, h]
    · by_cases hk' : k' = k₀
      · simp [alistSet, alistGet, hk, hk']
      · simp [alistSet, alistGet, hk, hk', ih]

theorem newer_available_eq_some_true (current : String)
    (fs : List (String × JValue)) :
    newer_available current fs = some true ↔
      ∃ s vt vc,
        (alistGet fs "tag_name").getD (JValue.str "0.0.0") = JValue.str s ∧
        parse_version (lstripChar 'v' s) = some vt ∧
        parse_version current = some vc ∧
        vlt vc vt = true := by
  unfold newer_available
  constructor
  · intro h
    split at h
    · next s heq =>
      split at h
      · next vt vc hvt hvc =>
        refine ⟨s, vt, vc, heq, hvt, hvc, ?_⟩
        simpa using h
      · next hn => simp at h
    · next hn => simp at h
  · rintro ⟨s, vt, vc, htag, hvt, hvc, hlt⟩
    rw [htag]
    simp [hvt, hvc, hlt]

/-! ## Claim theorems -/

/-- Claim C1: check_for_updates returns True exactly when a release dict
was fetched whose tag_name (stripped of leading v characters, defaulting
to "0.0.0" when absent) parses to a version strictly greater than the
parsed current version. -/
theorem check_for_updates_true_iff_newer (current : String)
    (resp : FetchResponse) :
    (check_for_updates current resp).1 = true ↔ SpecNewer current resp := by
  cases resp with
  | netError => simp [check_for_updates, SpecNewer]
  | httpError => simp [check_for_updates, SpecNewer]
  | notJson => simp [check_for_updates, SpecNewer]
  | payload v =>
    cases v with
    | obj fs =>
      constructor
      · intro h
        simp only [check_for_updates] at h
        have hb : newer_available current fs = some true := by
          rcases hnew : newer_available current fs with _ | b
          · rw [hnew] at h
            simp at h
          · rw [hnew] at h
            simp at h
            rw [h]
        rcases (newer_available_eq_some_true current fs).mp hb with
          ⟨s, vt, vc, htag, hvt, hvc, hlt⟩
        exact ⟨fs, s, vt, vc, rfl, htag, hvt, hvc, hlt⟩
      · rintro ⟨fs', s, vt, vc, heq, htag, hvt, hvc, hlt⟩
        rw [heq]
        have hb : newer_available current fs' = some true :=
          (newer_available_eq_some_true current fs').mpr
            ⟨s, vt, vc, htag, hvt, hvc, hlt⟩
        simp [check_for_updates, hb]
    | null => simp [check_for_updates, SpecNewer]
    | bool b => simp [check_for_updates, SpecNewer]
    | num n => simp [check_for_updates, SpecNewer]
    | str s => simp [check_for_updates, SpecNewer]
    | arr xs => simp [check_for_updates, SpecNewer]

/-- Claim C9, counterexample: a successfully fetched dict with no tag_name
is listed by the claim among the failures that must return False and leave
latest_version_info None, but the source defaults the tag to "0.0.0",
completes the comparison, and leaves latest_version_info set to the
fetched dict. -/
theorem check_missing_tag_keeps_info :
    check_for_updates "1.0.0" (FetchResponse.payload (JValue.obj []))
      = (false, some []) ∧
    ((check_for_updates "1.0.0" (FetchResponse.payload (JValue.obj []))).2).isNone
      = false :=
  ⟨rfl, rfl⟩

/-- Claim C9, amended: check_for_updates is total, and on every case in
which the source raises inside its try block (network error, HTTP error
status, non-JSON body, non-dict payload, non-string tag value, or an
unparseable latest or current version string) it returns False with
latest_version_info left None; a missing tag_name is not such a failure
and leaves latest_version_info set. -/
theorem check_failure_returns_false_none (current : String)
    (resp : FetchResponse) (h : check_failure current resp = true) :
    check_for_updates current resp = (false, none) := by
  cases resp with
  | netError => rfl
  | httpError => rfl
  | notJson => rfl
  | payload v =>
    cases v with
    | obj fs =>
      simp only [check_failure] at h
      simp only [check_for_updates]
      have hnone : newer_available current fs = none := by
        unfold newer_available
        split at h
        · next s heq =>
          rcases hvt : parse_version (lstripChar 'v' s) with _ | vt <;>
            rcases hvc : parse_version current with _ | vc <;>
            simp_all
        · next hn => rfl
      rw [hnone]
    | null => rfl
    | bool b => rfl
    | num n => rfl
    | str s => rfl
    | arr xs => rfl

/-- Claim C9, witness for the amended theorem at a concrete failing
fetch. -/
theorem check_failure_returns_false_none_witness :
    check_for_updates "1.0.0" FetchResponse.netError = (false, none) :=
  check_failure_returns_false_none "1.0.0" FetchResponse.netError rfl

/-- Claim C10, counterexample: with latest_version_info holding a truthy
non-array assets value (a JSON object), the subscript with 0 in
get_download_url raises a KeyError, so the claim that an index or key
error can never be raised fails. -/
theorem download_url_raises_key_error :
    get_download_url (some [("assets", JValue.obj [("x", JValue.null)])])
      = Except.error PyErr.keyError :=
  rfl

/-- Claim C10, amended: whenever the stored assets value, when present, is
a JSON array of objects (the release schema the claim describes),
get_download_url raises nothing and returns None when no release info is
stored, the assets key is absent, or the assets array is empty, and
otherwise the browser_download_url of the first asset (None when that key
is absent). -/
theorem download_url_ok_of_wellformed (info : Option (List (String × JValue)))
    (h : assetsWellFormed info = true) :
    get_download_url info = Except.ok (spec_download_url info) := by
  cases info with
  | none => rfl
  | some fs =>
    simp only [assetsWellFormed] at h
    simp only [get_download_url, spec_download_url]
    cases fs with
    | nil => simp [JValue.truthy, alistGet]
    | cons hd tl =>
      have htr : (JValue.obj (hd :: tl)).truthy = true := by
        simp [JValue.truthy]
      rw [htr]
      simp only [if_true]
      rcases hg : alistGet (hd :: tl) "assets" with _ | a
      · rfl
      · rw [hg] at h
        cases a with
        | arr xs =>
          cases xs with
          | nil => simp [JValue.truthy]
          | cons x xt =>
            have hall : (x :: xt).all
                (fun y => match y with | JValue.obj _ => true | _ => false)
                = true := by simpa using h
            have hx := List.all_eq_true.mp hall x (by simp)
            cases x with
            | obj gs => simp [JValue.truthy, subscriptZero, pyGet]
            | null => simp at hx
            | bool b => simp at hx
            | num n => simp at hx
            | str s => simp at hx
            | arr ys => simp at hx
        | null => simp at h
        | bool b => simp at h
        | num n => simp at h
        | str s => simp at h
        | obj gs => simp at h

/-- Claim C10, witness for the amended theorem at a concrete well-formed
release info. -/
theorem download_url_ok_of_wellformed_witness :
    get_download_url goodAssetsInfo = Except.ok (spec_download_url goodAssetsInfo) :=
  download_url_ok_of_wellformed goodAssetsInfo rfl

/-- Claim C2, evaluated at the failing input: the registry starts with
unique names, yet importing a CSV row whose Name equals the registered
player Alice succeeds (import_players_csv performs no duplicate-name
check, unlike add_player_detailed and the edit path) and the resulting
registry violates the stated name-uniqueness invariant. -/
theorem import_breaks_name_uniqueness :
    namesUnique aliceTournament.players = true ∧
    (import_players_csv (some aliceTournament) (some "players.csv") [aliceRow]).2
      = ImportOutcome.success 1 ∧
    ((import_players_csv (some aliceTournament) (some "players.csv") [aliceRow]).1.map
        (fun t => namesUnique t.players)) = some false := by
  refine ⟨rfl, rfl, rfl⟩

/-- Claim C3: when the tournament has not started, submitting dialog data
whose name is empty or duplicates a registered player's name is rejected
with a validation error surfaced to the user and the tournament (its
player registry included) is returned unchanged. -/
theorem add_player_invalid_rejected (t : Tournament) (rc : Bool)
    (d : PlayerData) (hns : t.rounds_pairings_ids = [])
    (hbad : d.name = "" ∨ ∃ pr ∈ t.players, pr.2.name = d.name) :
    (add_player_detailed (some t) rc (some d)).1 = some t ∧
    ((add_player_detailed (some t) rc (some d)).2 = AddPlayerOutcome.emptyNameError ∨
     (add_player_detailed (some t) rc (some d)).2 = AddPlayerOutcome.duplicateNameError) := by
  simp only [add_player_detailed, hns, List.isEmpty_nil, Bool.not_true,
    Bool.false_eq_true, if_false]
  rcases hbad with he | ⟨pr, hmem, hname⟩
  · simp [he]
  · by_cases he : d.name = ""
    · simp [he]
    · have hdup : t.players.any (fun pr => pr.2.name == d.name) = true := by
        rw [List.any_eq_true]
        exact ⟨pr, hmem, by simp [hname]⟩
      simp [he, hdup]

/-- Claim C3, witness: submitting a duplicate of the registered player
Alice is rejected and the tournament is unchanged. -/
theorem add_player_invalid_rejected_witness :
    (add_player_detailed (some aliceTournament) false (some aliceDupData)).1
      = some aliceTournament ∧
    ((add_player_detailed (some aliceTournament) false (some aliceDupData)).2
        = AddPlayerOutcome.emptyNameError ∨
     (add_player_detailed (some aliceTournament) false (some aliceDupData)).2
        = AddPlayerOutcome.duplicateNameError) :=
  add_player_invalid_rejected aliceTournament false aliceDupData rfl
    (Or.inr ⟨(0, alicePlayer), by decide, rfl⟩)

/-- Claim C4, counterexample: importing a row whose Rating cell does not
parse as an integer does not report a ValidationError and does not leave
the state unchanged: the import succeeds and the player is admitted with
rating None. -/
theorem import_invalid_rating_admitted :
    parse_py_int "abc" = none ∧
    import_players_csv (some emptyTournament) (some "players.csv") [badRatingRow]
      = (some { emptyTournament with players := [(0, bobCoerced)], nextId := 1 },
         ImportOutcome.success 1) :=
  ⟨rfl, rfl⟩

/-- Claim C4, amended: a row whose Rating cell is non-empty but not
parseable as an integer is silently admitted with its rating coerced to
None; the import reports success and the registry gains the new player
(no ValidationError, no rollback). -/
theorem import_coerces_invalid_rating (t : Tournament) (fn : String)
    (r : CsvRow) (nm s : String) (hns : t.rounds_pairings_ids = [])
    (hname : r.name = some nm) (hnm : nm ≠ "")
    (hr : r.rating = some s) (hs : s ≠ "") (hbad : parse_py_int s = none) :
    import_players_csv (some t) (some fn) [r]
      = (some { t with
            players := alistSet t.players t.nextId
              { id := t.nextId, name := nm, rating := none,
                gender := r.gender, dob := r.dob, phone := r.phone,
                email := r.email, club := r.club, federation := r.federation,
                is_active := true },
            nextId := t.nextId + 1 },
         ImportOutcome.success 1) := by
  simp [import_players_csv, importRows, hns, hname, hnm, hr, hs, hbad]

/-- Claim C4, witness for the amended theorem at the concrete bad-rating
row. -/
theorem import_coerces_invalid_rating_witness :
    import_players_csv (some emptyTournament) (some "players.csv") [badRatingRow]
      = (some { emptyTournament with
            players := alistSet emptyTournament.players emptyTournament.nextId
              { id := emptyTournament.nextId, name := "Bob", rating := none,
                gender := badRatingRow.gender, dob := badRatingRow.dob,
                phone := badRatingRow.phone, email := badRatingRow.email,
                club := badRatingRow.club, federation := badRatingRow.federation,
                is_active := true },
            nextId := emptyTournament.nextId + 1 },
         ImportOutcome.success 1) :=
  import_coerces_invalid_rating emptyTournament "players.csv" badRatingRow
    "Bob" "abc" rfl rfl (by decide) rfl (by decide) rfl

/-- Claim C5: once any round has been paired, accepting the settings
dialog leaves num_rounds unchanged whatever (num_rounds, tiebreaks) pair
the dialog returns, and this also covers the rejected dialog. -/
theorem settings_num_rounds_frozen (st : AppState) (t : Tournament)
    (dlg : Option (Nat × List String)) (ht : st.tournament = some t)
    (hs : t.rounds_pairings_ids ≠ []) :
    ((show_settings_dialog st dlg).1.tournament).map Tournament.num_rounds
      = some t.num_rounds := by
  have hemp : t.rounds_pairings_ids.isEmpty = false := by
    cases hrp : t.rounds_pairings_ids with
    | nil => exact absurd hrp hs
    | cons a b => rfl
  simp only [show_settings_dialog, ht]
  cases dlg with
  | none => simp [ht]
  | some p =>
    obtain ⟨r, tb⟩ := p
    simp only [hemp, Bool.not_false]
    by_cases htb : t.tiebreak_order ≠ tb <;> simp [htb]

/-- Claim C5, witness: with round 1 paired, a dialog returning 7 rounds
leaves num_rounds at its prior value 3. -/
theorem settings_num_rounds_frozen_witness :
    ((show_settings_dialog startedApp (some (7, ["wins"]))).1.tournament).map
        Tournament.num_rounds = some startedTournament.num_rounds :=
  settings_num_rounds_frozen startedApp startedTournament (some (7, ["wins"]))
    rfl (by decide)

/-- Claim C6: in any lifecycle state, accepting the settings dialog with a
changed tiebreak order installs the new order and triggers a standings
re-sort, while the round ledger (pairings and recorded results) is
exactly unchanged. -/
theorem settings_tiebreak_update_frame (st : AppState) (t : Tournament)
    (newR : Nat) (newTb : List String) (ht : st.tournament = some t)
    (hne : t.tiebreak_order ≠ newTb) :
    ∃ t', (show_settings_dialog st (some (newR, newTb))).1.tournament = some t' ∧
      t'.tiebreak_order = newTb ∧
      t'.rounds_pairings_ids = t.rounds_pairings_ids ∧
      t'.rounds_results = t.rounds_results ∧
      (show_settings_dialog st (some (newR, newTb))).1.standingsResorts
        = st.standingsResorts + 1 := by
  simp only [show_settings_dialog, ht]
  split
  · exact ⟨_, rfl, rfl, rfl, rfl, rfl⟩
  · exact ⟨_, rfl, rfl, rfl, rfl, rfl⟩

/-- Claim C6, witness: changing the tiebreak order on the started
tournament installs it, bumps the standings re-sort counter, and keeps the
ledger. -/
theorem settings_tiebreak_update_frame_witness :
    ∃ t', (show_settings_dialog startedApp
        (some (7, ["wins"]))).1.tournament = some t' ∧
      t'.tiebreak_order = ["wins"] ∧
      t'.rounds_pairings_ids = startedTournament.rounds_pairings_ids ∧
      t'.rounds_results = startedTournament.rounds_results ∧
      (show_settings_dialog startedApp (some (7, ["wins"]))).1.standingsResorts
        = startedApp.standingsResorts + 1 :=
  settings_tiebreak_update_frame startedApp startedTournament 7 ["wins"]
    rfl (by decide)

/-- Claim C7: when the chosen tournament file is unreadable, holds
malformed JSON, or fails Tournament.from_dict decoding, load_tournament
reports the failure and resets the application to the empty no-tournament
state: no tournament, round index 0, no filepath. -/
theorem load_failure_resets (st : AppState) (fn : String) (d : LoadData)
    (hd : d = LoadData.unreadable ∨ d = LoadData.badJson ∨ d = LoadData.decodeError) :
    load_tournament st true (some fn) d
      = (reset_tournament_state st, LoadOutcome.failed) ∧
    (load_tournament st true (some fn) d).1.tournament = none ∧
    (load_tournament st true (some fn) d).1.current_round_index = 0 ∧
    (load_tournament st true (some fn) d).1.filepath = none := by
  rcases hd with h | h | h <;> subst h <;> exact ⟨rfl, rfl, rfl, rfl⟩

/-- Claim C7, witness: loading a malformed-JSON file from the started
application resets it and reports the failure. -/
theorem load_failure_resets_witness :
    load_tournament startedApp true (some "t.json") LoadData.badJson
      = (reset_tournament_state startedApp, LoadOutcome.failed) ∧
    (load_tournament startedApp true (some "t.json") LoadData.badJson).1.tournament
      = none ∧
    (load_tournament startedApp true (some "t.json") LoadData.badJson).1.current_round_index
      = 0 ∧
    (load_tournament startedApp true (some "t.json") LoadData.badJson).1.filepath
      = none :=
  load_failure_resets startedApp "t.json" LoadData.badJson (Or.inr (Or.inl rfl))

/-- Claim C8: the withdraw/reactivate context action toggles exactly the
selected player's is_active flag: the player stays in the registry with
id, name, rating and all other attributes unchanged, every other player's
entry is untouched, and the round ledger (pairings and results) is not
modified. -/
theorem withdraw_toggles_only_is_active (t : Tournament) (pid : Nat)
    (p : Player) (hp : alistGet t.players pid = some p) :
    alistGet (withdraw_reactivate t pid).players pid
      = some { p with is_active := !p.is_active } ∧
    (∀ q, q ≠ pid →
      alistGet (withdraw_reactivate t pid).players q = alistGet t.players q) ∧
    (withdraw_reactivate t pid).rounds_pairings_ids = t.rounds_pairings_ids ∧
    (withdraw_reactivate t pid).rounds_results = t.rounds_results ∧
    ({ p with is_active := !p.is_active }).id = p.id ∧
    ({ p with is_active := !p.is_active }).name = p.name ∧
    ({ p with is_active := !p.is_active }).rating = p.rating := by
  unfold withdraw_reactivate
  rw [hp]
  exact ⟨alistGet_alistSet_self _ _ _,
    fun q hq => alistGet_alistSet_ne _ _ _ _ hq, rfl, rfl, rfl, rfl, rfl⟩

/-- Claim C8, witness: withdrawing registered player Alice toggles her
is_active flag and changes nothing else. -/
theorem withdraw_toggles_only_is_active_witness :
    alistGet (withdraw_reactivate aliceTournament 0).players 0
      = some { alicePlayer with is_active := !alicePlayer.is_active } ∧
    (∀ q, q ≠ 0 →
      alistGet (withdraw_reactivate aliceTournament 0).players q
        = alistGet aliceTournament.players q) ∧
    (withdraw_reactivate aliceTournament 0).rounds_pairings_ids
      = aliceTournament.rounds_pairings_ids ∧
    (withdraw_reactivate aliceTournament 0).rounds_results
      = aliceTournament.rounds_results ∧
    ({ alicePlayer with is_active := !alicePlayer.is_active }).id = alicePlayer.id ∧
    ({ alicePlayer with is_active := !alicePlayer.is_active }).name = alicePlayer.name ∧
    ({ alicePlayer with is_active := !alicePlayer.is_active }).rating = alicePlayer.rating :=
  withdraw_toggles_only_is_active aliceTournament 0 alicePlayer rfl

/-! ## Concrete behaviour checks on the embedded operations -/

example :
    ((show_settings_dialog startedApp (some (7, ["wins"]))).1.tournament).map
        Tournament.num_rounds = some 3 := by decide

example :
    ((show_settings_dialog
        { startedApp with tournament := some aliceTournament }
        (some (7, ["wins"]))).1.tournament).map Tournament.num_rounds
      = some 7 := by decide

example :
    (show_settings_dialog startedApp
        (some (3, startedTournament.tiebreak_order))).1.standingsResorts = 0 := by decide

example :
    (alistGet (withdraw_reactivate aliceTournament 0).players 0).map Player.is_active
      = some false := by decide

example :
    (add_player_detailed (some aliceTournament) false
        (some { aliceDupData with name := "Carol" })).2
      = AddPlayerOutcome.added 1 := by decide

example :
    load_tournament startedApp true (some "t.json")
        (LoadData.decoded emptyTournament 0 [])
      = ({ reset_tournament_state startedApp with
            tournament := some emptyTournament, filepath := some "t.json",
            historyLog := ["--- Tournament loaded from t.json ---"] },
         LoadOutcome.loaded) := by decide
